import Mathlib

/-!
# DiagnosticAI frontend — conversation controller, shallow embedding

This file embeds the state/transition logic of the DiagnosticAI single-page
app (`App` component in the frontend source, plus `services/api.js`) and
proves the testable properties of its specification.

Modelling conventions:
* Each `useState` field of the component becomes a field of `AppState`.
* A JS object that may be absent is an `Option`; a plain JS object with
  optional keys becomes a structure of `Option` fields (absent key = `none`).
* An event handler becomes a pure function from the pre-state and the network
  outcome to a `HandlerResult`: the post-state, the list of HTTP requests the
  handler issued, and the list of `alert` messages it showed.  The
  `setIsLoading(true)` / `finally setIsLoading(false)` pair collapses to
  `isLoading := false` in the post-state of every path that passes validation.
* Render logic is embedded as functions of the state: the screen chosen by
  the top-level conditionals, the number of answer textareas, whether the
  research button exists, and which extracted-data rows are emitted.
  JS truthiness is modelled per type: an array field renders iff present
  (arrays are always truthy), a string field renders iff present and nonempty.
  A field access on an `undefined` record is a TypeError, modelled as `none`.
-/

/-- The `extracted_data` record returned by the backend: five optional keys
(`App` reads exactly these).  An absent key is `none`. -/
structure ExtractedData where
  parsed_symptoms : Option (List String)
  body_parts_affected : Option (List String)
  time_since_start : Option String
  evolution_of_symptoms : Option String
  medical_checks : Option (List String)
deriving DecidableEq, Repr

/-- The empty JS object `{}`: no keys present. -/
def ExtractedData.empty : ExtractedData :=
  ⟨none, none, none, none, none⟩

/-- The `web_research_results` record: six optional keys read by the
Complete screen. -/
structure WebResearchResults where
  possible_conditions : Option (List String)
  symptom_explanations : Option (List String)
  red_flags : Option (List String)
  search_summary : Option String
  confidence_level : Option String
  additional_questions : Option (List String)
deriving DecidableEq, Repr

/-- The empty JS object `{}` for web research results. -/
def WebResearchResults.empty : WebResearchResults :=
  ⟨none, none, none, none, none, none⟩

/-- Response body of `POST /api/analyze`.  `extracted_data` is `Option`
because the handlers store it verbatim, so its absence is observable. -/
structure AnalyzeResponse where
  is_complete : Bool
  status : String
  extracted_data : Option ExtractedData
  follow_up_questions : List String
deriving DecidableEq, Repr

/-- Response body of `POST /api/web-research`. -/
structure ResearchResponse where
  extracted_data : Option ExtractedData
  web_research_results : Option WebResearchResults
deriving DecidableEq, Repr

/-- The component state: one field per `useState` hook of `App`.
`questionAnswers` is the `{index: answer}` object, as an association list;
`extractedData` is `Option` since the analyze handlers may store an absent
response field (JS `undefined`) into it. -/
structure AppState where
  symptoms : String
  charCount : Nat
  isLoading : Bool
  conversationComplete : Bool
  followUpQuestions : List String
  threadId : String
  questionAnswers : List (Nat × String)
  extractedData : Option ExtractedData
  showExtractedData : Bool
  webResearchResults : WebResearchResults
deriving DecidableEq, Repr

/-- The state after mount: `useState` initial values, with the thread id
minted once (`thread_${Date.now()}` — opaque here). -/
def initState (tid : String) : AppState :=
  { symptoms := ""
    charCount := 0
    isLoading := false
    conversationComplete := false
    followUpQuestions := []
    threadId := tid
    questionAnswers := []
    extractedData := some ExtractedData.empty
    showExtractedData := false
    webResearchResults := WebResearchResults.empty }

/-- An HTTP request as built by `apiEndpoints` in `services/api.js`:
`analyzeSymptoms` posts `{symptoms, thread_id}`, `webResearch` posts
`{thread_id}`. -/
inductive ApiRequest where
  | analyze (symptoms : String) (thread_id : String)
  | webResearch (thread_id : String)
deriving DecidableEq, Repr

/-- The thread identifier a request carries. -/
def ApiRequest.threadOf : ApiRequest → String
  | .analyze _ t => t
  | .webResearch t => t

/-- The ways an awaited axios call can fail, per the `catch` in
`handleSubmit`: a server error response (with optional `detail`), a request
that got no response, or anything else. -/
inductive NetError where
  | response (detail : Option String)
  | request
  | other
deriving DecidableEq, Repr

/-- Outcome of an awaited network call. -/
inductive Outcome (α : Type) where
  | success (resp : α)
  | failure (e : NetError)
deriving DecidableEq, Repr

/-- What one handler invocation produced: the post-state, the requests it
issued (in order), and the `alert` messages it showed. -/
structure HandlerResult where
  state : AppState
  requests : List ApiRequest
  alerts : List String
deriving DecidableEq, Repr

/-- JS `String.prototype.trim()`: strip leading and trailing whitespace.
(Defined structurally over the character list so that concrete runs
evaluate; the builtin `String.trim` is not kernel-reducible.) -/
def jsTrim (s : String) : String :=
  String.mk (((s.data.dropWhile Char.isWhitespace).reverse.dropWhile Char.isWhitespace).reverse)

/-- JS object lookup `questionAnswers[index]`: `none` is `undefined`. -/
def lookupAnswer (qa : List (Nat × String)) (i : Nat) : Option String :=
  (qa.find? fun p => p.1 == i).map Prod.snd

/-- JS template-literal interpolation of a possibly-undefined value
(`undefined` prints as the string "undefined"; unreachable after
validation). -/
def jsInterp : Option String → String
  | some a => a
  | none => "undefined"

/-- The predicate of the filter in `handleFollowUpSubmit`:
`!questionAnswers[index] || !questionAnswers[index].trim()`. -/
def answerBlank (qa : List (Nat × String)) (i : Nat) : Bool :=
  match lookupAnswer qa i with
  | none => true
  | some a => jsTrim a == ""

/-- `followUpQuestions.filter((_, index) => blank)` — an index-aware filter,
accumulating from index `n`. -/
def filterBlankFrom (qa : List (Nat × String)) : Nat → List String → List String
  | _, [] => []
  | n, q :: qs =>
    if answerBlank qa n then q :: filterBlankFrom qa (n + 1) qs
    else filterBlankFrom qa (n + 1) qs

/-- The `unansweredQuestions` list computed by `handleFollowUpSubmit`. -/
def unansweredQuestions (s : AppState) : List String :=
  filterBlankFrom s.questionAnswers 0 s.followUpQuestions

/-- JS `Array.prototype.map` with the index callback argument, from `n`. -/
def mapWithIdx (f : Nat → String → String) : Nat → List String → List String
  | _, [] => []
  | n, q :: qs => f n q :: mapWithIdx f (n + 1) qs

/-- JS `Array.prototype.join(sep)`. -/
def joinSep (sep : String) : List String → String
  | [] => ""
  | [x] => x
  | x :: y :: xs => x ++ sep ++ joinSep sep (y :: xs)

/-- `combinedAnswers` in `handleFollowUpSubmit`:
`followUpQuestions.map((question, index) => ...).join(backslash-n twice)`. -/
def combinedAnswers (fq : List String) (qa : List (Nat × String)) : String :=
  joinSep "\n\n"
    (mapWithIdx (fun i q => "Q: " ++ q ++ "\nA: " ++ jsInterp (lookupAnswer qa i)) 0 fq)

/-- The alert text of the catch block in `handleSubmit`, by error kind.
The fallback `error.response.data?.detail || "Server error"` treats an
absent or empty detail as a generic server error. -/
def analyzeErrorMessage : NetError → String
  | .response (some d) => if d == "" then "Analysis failed: Server error" else "Analysis failed: " ++ d
  | .response none => "Analysis failed: Server error"
  | .request => "No response from server. Please check your connection."
  | .other => "Analysis failed. Please try again."

/-- `handleSubmit`: validate the free-text input, post it with the thread id,
and dispatch on the reply (`is_complete` / extracted status /
otherwise follow-up questions, clearing the input). -/
def handleSubmit (s : AppState) (net : Outcome AnalyzeResponse) : HandlerResult :=
  if jsTrim s.symptoms == "" then
    { state := s, requests := [], alerts := ["Please describe your symptoms."] }
  else
    let req := ApiRequest.analyze s.symptoms s.threadId
    match net with
    | .success r =>
      let s1 :=
        if r.is_complete then
          { s with conversationComplete := true
                   followUpQuestions := []
                   extractedData := r.extracted_data
                   showExtractedData := false }
        else if r.status == "extracted" then
          { s with showExtractedData := true
                   extractedData := r.extracted_data
                   followUpQuestions := [] }
        else
          { s with followUpQuestions := r.follow_up_questions
                   symptoms := ""
                   charCount := 0
                   questionAnswers := []
                   showExtractedData := false }
      { state := { s1 with isLoading := false }, requests := [req], alerts := [] }
    | .failure e =>
      { state := { s with isLoading := false }, requests := [req],
        alerts := [analyzeErrorMessage e] }

/-- `handleFollowUpSubmit`: reject if any question is unanswered, else post
the combined Q/A text with the thread id and dispatch on the reply exactly
as `handleSubmit` does — except that the follow-up branch does not touch
`symptoms`/`charCount`. -/
def handleFollowUpSubmit (s : AppState) (net : Outcome AnalyzeResponse) : HandlerResult :=
  if (unansweredQuestions s).length > 0 then
    { state := s, requests := [], alerts := ["Please answer all questions before submitting."] }
  else
    let req := ApiRequest.analyze (combinedAnswers s.followUpQuestions s.questionAnswers) s.threadId
    match net with
    | .success r =>
      let s1 :=
        if r.is_complete then
          { s with conversationComplete := true
                   followUpQuestions := []
                   extractedData := r.extracted_data
                   showExtractedData := false }
        else if r.status == "extracted" then
          { s with showExtractedData := true
                   extractedData := r.extracted_data
                   followUpQuestions := [] }
        else
          { s with followUpQuestions := r.follow_up_questions
                   questionAnswers := []
                   showExtractedData := false }
      { state := { s1 with isLoading := false }, requests := [req], alerts := [] }
    | .failure _ =>
      { state := { s with isLoading := false }, requests := [req],
        alerts := ["Failed to submit answers. Please try again."] }

/-- `handleWebResearch`: post `{thread_id}`; on success store
`extracted_data` verbatim and `web_research_results || \x7b\x7d`, and mark the
conversation complete. -/
def handleWebResearch (s : AppState) (net : Outcome ResearchResponse) : HandlerResult :=
  let req := ApiRequest.webResearch s.threadId
  match net with
  | .success r =>
    { state := { s with conversationComplete := true
                        showExtractedData := false
                        extractedData := r.extracted_data
                        webResearchResults := r.web_research_results.getD WebResearchResults.empty
                        isLoading := false },
      requests := [req], alerts := [] }
  | .failure _ =>
    { state := { s with isLoading := false }, requests := [req],
      alerts := ["Web research failed. Please try again."] }

/-- `resetConversation`: every conversation field back to its initial value.
`threadId` and `isLoading` are not touched. -/
def resetConversation (s : AppState) : AppState :=
  { s with symptoms := ""
           charCount := 0
           conversationComplete := false
           followUpQuestions := []
           questionAnswers := []
           extractedData := some ExtractedData.empty
           showExtractedData := false
           webResearchResults := WebResearchResults.empty }

/-- `handleInputChange`: store the textarea value and its length. -/
def handleInputChange (s : AppState) (v : String) : AppState :=
  { s with symptoms := v, charCount := v.length }

/-- `handleQuestionAnswerChange`: `{...prev, [questionIndex]: value}`. -/
def handleQuestionAnswerChange (s : AppState) (i : Nat) (v : String) : AppState :=
  { s with questionAnswers := (i, v) :: s.questionAnswers.filter fun p => !(p.1 == i) }

/-- The three effective screens, per the top-level render conditionals:
`conversationComplete` wins, then `showExtractedData`, else the collecting
screen (initial form or follow-up form). -/
inductive Stage where
  | collecting
  | extracted
  | complete
deriving DecidableEq, Repr

/-- Which screen `App` returns for a state. -/
def stage (s : AppState) : Stage :=
  if s.conversationComplete then .complete
  else if s.showExtractedData then .extracted
  else .collecting

/-- How many follow-up answer textareas the render produces: one per element
of `followUpQuestions`, but only on the collecting screen and only when the
list is nonempty (else the initial form is shown). -/
def renderedAnswerInputs (s : AppState) : Nat :=
  if s.conversationComplete then 0
  else if s.showExtractedData then 0
  else s.followUpQuestions.length

/-- Whether the research button is rendered: only the
extracted screen has it. -/
def researchOffered (s : AppState) : Bool :=
  !s.conversationComplete && s.showExtractedData

/-- Tags for the five extracted-data rows both result screens can show. -/
inductive EDField where
  | symptomsList
  | bodyParts
  | timeline
  | evolution
  | medicalChecks
deriving DecidableEq, Repr

/-- JS truthiness of a possibly-absent string field: absent (`undefined`)
and the empty string are falsy. -/
def jsTruthyStr : Option String → Bool
  | none => false
  | some a => !(a == "")

/-- The rows the render emits for an extracted-data record, in source order:
each row is guarded by JS truthiness of its field (`ed.field && <row>`), so
array fields show whenever present and string fields show when present and
nonempty. -/
def displayedEDFields (ed : ExtractedData) : List EDField :=
  (if ed.parsed_symptoms.isSome then [EDField.symptomsList] else []) ++
  (if ed.body_parts_affected.isSome then [EDField.bodyParts] else []) ++
  (if jsTruthyStr ed.time_since_start then [EDField.timeline] else []) ++
  (if jsTruthyStr ed.evolution_of_symptoms then [EDField.evolution] else []) ++
  (if ed.medical_checks.isSome then [EDField.medicalChecks] else [])

/-- The extracted-data section of the Complete or Extracted screen: reading
a field of an `undefined` record is a TypeError, modelled as `none`. -/
def renderEDSection : Option ExtractedData → Option (List EDField)
  | none => none
  | some ed => some (displayedEDFields ed)

/-- The states the controller can be in, starting from mount with thread id
`tid` and folding completed handler invocations.  Each constructor carries
the render condition under which its control exists: the free-text form and
the follow-up form are on the collecting screen (split on whether
`followUpQuestions` is empty), the research button on the extracted screen,
the reset button on the complete screen. -/
inductive Reachable (tid : String) : AppState → Prop where
  | init : Reachable tid (initState tid)
  | input (s : AppState) (v : String) :
      Reachable tid s → stage s = .collecting → s.followUpQuestions = [] →
      Reachable tid (handleInputChange s v)
  | answer (s : AppState) (i : Nat) (v : String) :
      Reachable tid s → stage s = .collecting → s.followUpQuestions ≠ [] →
      Reachable tid (handleQuestionAnswerChange s i v)
  | submit (s : AppState) (net : Outcome AnalyzeResponse) :
      Reachable tid s → stage s = .collecting → s.followUpQuestions = [] →
      Reachable tid (handleSubmit s net).state
  | followUp (s : AppState) (net : Outcome AnalyzeResponse) :
      Reachable tid s → stage s = .collecting → s.followUpQuestions ≠ [] →
      Reachable tid (handleFollowUpSubmit s net).state
  | research (s : AppState) (net : Outcome ResearchResponse) :
      Reachable tid s → stage s = .extracted →
      Reachable tid (handleWebResearch s net).state
  | reset (s : AppState) :
      Reachable tid s → stage s = .complete →
      Reachable tid (resetConversation s)

/-- The inductive invariant of the controller: the thread id is fixed, the
busy flag is clear between events, the completion and extraction flags
exclude each other, either flag forces an empty question list, and a
nonempty question list forces a cleared free-text input. -/
def CtrlInv (tid : String) (s : AppState) : Prop :=
  s.threadId = tid ∧
  s.isLoading = false ∧
  ¬(s.conversationComplete = true ∧ s.showExtractedData = true) ∧
  (s.conversationComplete = true → s.followUpQuestions = []) ∧
  (s.showExtractedData = true → s.followUpQuestions = []) ∧
  (s.followUpQuestions ≠ [] → s.symptoms = "" ∧ s.charCount = 0)

lemma stage_collecting_iff (s : AppState) :
    stage s = .collecting ↔ s.conversationComplete = false ∧ s.showExtractedData = false := by
  unfold stage
  cases hc : s.conversationComplete <;> cases he : s.showExtractedData <;> simp

lemma stage_extracted_iff (s : AppState) :
    stage s = .extracted ↔ s.conversationComplete = false ∧ s.showExtractedData = true := by
  unfold stage
  cases hc : s.conversationComplete <;> cases he : s.showExtractedData <;> simp

lemma stage_complete_iff (s : AppState) :
    stage s = .complete ↔ s.conversationComplete = true := by
  unfold stage
  cases hc : s.conversationComplete <;> cases he : s.showExtractedData <;> simp

/-- Path lemma: empty-after-trim input blocks `handleSubmit` entirely. -/
lemma handleSubmit_invalid {s : AppState} {net : Outcome AnalyzeResponse}
    (h : jsTrim s.symptoms = "") :
    handleSubmit s net = ⟨s, [], ["Please describe your symptoms."]⟩ := by
  simp [handleSubmit, h]

/-- Path lemma: a failed analyze call only clears the busy flag and alerts. -/
lemma handleSubmit_failure {s : AppState} {e : NetError}
    (h : jsTrim s.symptoms ≠ "") :
    handleSubmit s (.failure e) =
      ⟨{ s with isLoading := false }, [.analyze s.symptoms s.threadId],
        [analyzeErrorMessage e]⟩ := by
  simp [handleSubmit, h]

/-- Path lemma: the `is_complete` branch of `handleSubmit`. -/
lemma handleSubmit_complete {s : AppState} {r : AnalyzeResponse}
    (h : jsTrim s.symptoms ≠ "") (hic : r.is_complete = true) :
    handleSubmit s (.success r) =
      ⟨{ s with conversationComplete := true, followUpQuestions := [],
                extractedData := r.extracted_data, showExtractedData := false,
                isLoading := false },
        [.analyze s.symptoms s.threadId], []⟩ := by
  simp [handleSubmit, h, hic]

/-- Path lemma: the extracted-status branch of `handleSubmit`. -/
lemma handleSubmit_extracted {s : AppState} {r : AnalyzeResponse}
    (h : jsTrim s.symptoms ≠ "") (hic : r.is_complete = false)
    (hex : r.status = "extracted") :
    handleSubmit s (.success r) =
      ⟨{ s with showExtractedData := true, extractedData := r.extracted_data,
                followUpQuestions := [], isLoading := false },
        [.analyze s.symptoms s.threadId], []⟩ := by
  simp [handleSubmit, h, hic, hex]

/-- Path lemma: the follow-up branch of `handleSubmit` clears the input. -/
lemma handleSubmit_followups {s : AppState} {r : AnalyzeResponse}
    (h : jsTrim s.symptoms ≠ "") (hic : r.is_complete = false)
    (hex : r.status ≠ "extracted") :
    handleSubmit s (.success r) =
      ⟨{ s with followUpQuestions := r.follow_up_questions, symptoms := "",
                charCount := 0, questionAnswers := [], showExtractedData := false,
                isLoading := false },
        [.analyze s.symptoms s.threadId], []⟩ := by
  simp [handleSubmit, h, hic, hex]

/-- Path lemma: an unanswered question blocks `handleFollowUpSubmit`. -/
lemma handleFollowUpSubmit_invalid {s : AppState} {net : Outcome AnalyzeResponse}
    (h : unansweredQuestions s ≠ []) :
    handleFollowUpSubmit s net =
      ⟨s, [], ["Please answer all questions before submitting."]⟩ := by
  have : (unansweredQuestions s).length > 0 := List.length_pos.mpr h
  simp [handleFollowUpSubmit, this]

/-- Path lemma: a failed follow-up call only clears the busy flag. -/
lemma handleFollowUpSubmit_failure {s : AppState} {e : NetError}
    (h : unansweredQuestions s = []) :
    handleFollowUpSubmit s (.failure e) =
      ⟨{ s with isLoading := false },
        [.analyze (combinedAnswers s.followUpQuestions s.questionAnswers) s.threadId],
        ["Failed to submit answers. Please try again."]⟩ := by
  simp [handleFollowUpSubmit, h]

/-- Path lemma: the `is_complete` branch of `handleFollowUpSubmit`. -/
lemma handleFollowUpSubmit_complete {s : AppState} {r : AnalyzeResponse}
    (h : unansweredQuestions s = []) (hic : r.is_complete = true) :
    handleFollowUpSubmit s (.success r) =
      ⟨{ s with conversationComplete := true, followUpQuestions := [],
                extractedData := r.extracted_data, showExtractedData := false,
                isLoading := false },
        [.analyze (combinedAnswers s.followUpQuestions s.questionAnswers) s.threadId],
        []⟩ := by
  simp [handleFollowUpSubmit, h, hic]

/-- Path lemma: the extracted-status branch of `handleFollowUpSubmit`. -/
lemma handleFollowUpSubmit_extracted {s : AppState} {r : AnalyzeResponse}
    (h : unansweredQuestions s = []) (hic : r.is_complete = false)
    (hex : r.status = "extracted") :
    handleFollowUpSubmit s (.success r) =
      ⟨{ s with showExtractedData := true, extractedData := r.extracted_data,
                followUpQuestions := [], isLoading := false },
        [.analyze (combinedAnswers s.followUpQuestions s.questionAnswers) s.threadId],
        []⟩ := by
  simp [handleFollowUpSubmit, h, hic, hex]

/-- Path lemma: the next-round branch of `handleFollowUpSubmit` keeps
`symptoms` and `charCount` untouched. -/
lemma handleFollowUpSubmit_followups {s : AppState} {r : AnalyzeResponse}
    (h : unansweredQuestions s = []) (hic : r.is_complete = false)
    (hex : r.status ≠ "extracted") :
    handleFollowUpSubmit s (.success r) =
      ⟨{ s with followUpQuestions := r.follow_up_questions, questionAnswers := [],
                showExtractedData := false, isLoading := false },
        [.analyze (combinedAnswers s.followUpQuestions s.questionAnswers) s.threadId],
        []⟩ := by
  simp [handleFollowUpSubmit, h, hic, hex]

/-- Path lemma: a successful research call. -/
lemma handleWebResearch_success {s : AppState} {r : ResearchResponse} :
    handleWebResearch s (.success r) =
      ⟨{ s with conversationComplete := true, showExtractedData := false,
                extractedData := r.extracted_data,
                webResearchResults := r.web_research_results.getD WebResearchResults.empty,
                isLoading := false },
        [.webResearch s.threadId], []⟩ := by
  simp [handleWebResearch]

/-- Path lemma: a failed research call only clears the busy flag. -/
lemma handleWebResearch_failure {s : AppState} {e : NetError} :
    handleWebResearch s (.failure e) =
      ⟨{ s with isLoading := false }, [.webResearch s.threadId],
        ["Web research failed. Please try again."]⟩ := by
  simp [handleWebResearch]

/-- Every reachable state satisfies the controller invariant. -/
lemma reachable_inv {tid : String} {s : AppState} (h : Reachable tid s) : CtrlInv tid s := by
  induction h with
  | init =>
    exact ⟨rfl, rfl, by simp [initState], by simp [initState], by simp [initState],
      by simp [initState]⟩
  | input s v _ hst hfq ih =>
    obtain ⟨h1, h2, h3, h4, h5, _⟩ := ih
    exact ⟨h1, h2, h3, h4, h5, by simp [handleInputChange, hfq]⟩
  | answer s i v _ hst hfq ih =>
    obtain ⟨h1, h2, h3, h4, h5, h6⟩ := ih
    exact ⟨h1, h2, h3, h4, h5, by simpa [handleQuestionAnswerChange] using h6⟩
  | submit s net _ hst hfq ih =>
    obtain ⟨hcc, hse⟩ := (stage_collecting_iff _).mp hst
    obtain ⟨h1, h2, h3, h4, h5, h6⟩ := ih
    by_cases hval : jsTrim s.symptoms = ""
    · rw [handleSubmit_invalid hval]
      exact ⟨h1, h2, h3, h4, h5, h6⟩
    · cases net with
      | success r =>
        by_cases hic : r.is_complete = true
        · rw [handleSubmit_complete hval hic]
          exact ⟨h1, rfl, by simp [hcc], by simp, by simp, by simp [hfq]⟩
        · replace hic : r.is_complete = false := by simpa using hic
          by_cases hex : r.status = "extracted"
          · rw [handleSubmit_extracted hval hic hex]
            exact ⟨h1, rfl, by simp [hcc], by simp [hcc], by simp, by simp⟩
          · rw [handleSubmit_followups hval hic hex]
            exact ⟨h1, rfl, by simp [hcc], by simp [hcc], by simp, by simp⟩
      | failure e =>
        rw [handleSubmit_failure hval]
        exact ⟨h1, rfl, h3, h4, h5, h6⟩
  | followUp s net _ hst hfq ih =>
    obtain ⟨hcc, hse⟩ := (stage_collecting_iff _).mp hst
    obtain ⟨h1, h2, h3, h4, h5, h6⟩ := ih
    obtain ⟨hsy, hch⟩ := h6 hfq
    by_cases hval : unansweredQuestions s = []
    · cases net with
      | success r =>
        by_cases hic : r.is_complete = true
        · rw [handleFollowUpSubmit_complete hval hic]
          exact ⟨h1, rfl, by simp [hcc], by simp, by simp, by simp [hsy, hch]⟩
        · replace hic : r.is_complete = false := by simpa using hic
          by_cases hex : r.status = "extracted"
          · rw [handleFollowUpSubmit_extracted hval hic hex]
            exact ⟨h1, rfl, by simp [hcc], by simp [hcc], by simp, by simp [hsy, hch]⟩
          · rw [handleFollowUpSubmit_followups hval hic hex]
            exact ⟨h1, rfl, by simp [hcc], by simp [hcc], by simp [hse], by simp [hsy, hch]⟩
      | failure e =>
        rw [handleFollowUpSubmit_failure hval]
        exact ⟨h1, rfl, h3, h4, h5, h6⟩
    · rw [handleFollowUpSubmit_invalid hval]
      exact ⟨h1, h2, h3, h4, h5, h6⟩
  | research s net _ hst ih =>
    obtain ⟨hcc, hse⟩ := (stage_extracted_iff _).mp hst
    obtain ⟨h1, h2, h3, h4, h5, h6⟩ := ih
    have hfq : s.followUpQuestions = [] := h5 hse
    cases net with
    | success r =>
      rw [handleWebResearch_success]
      exact ⟨h1, rfl, by simp, by simp [hfq], by simp, by simp [hfq]⟩
    | failure e =>
      rw [handleWebResearch_failure]
      exact ⟨h1, rfl, h3, h4, h5, h6⟩
  | reset s _ hst ih =>
    obtain ⟨h1, h2, _, _, _, _⟩ := ih
    exact ⟨h1, h2, by simp [resetConversation], by simp [resetConversation],
      by simp [resetConversation], by simp [resetConversation]⟩

/-- Modelled from the spec sentence: one block `Q: <question>` newline
`A: <answer>` per question/answer pair, consecutive blocks joined by one
blank line, taking the pairs in question order (`a i` is the answer to the
`i`-th question). -/
def specQAText : List String → (Nat → String) → String
  | [], _ => ""
  | [q], a => "Q: " ++ q ++ "\nA: " ++ a 0
  | q :: q2 :: qs, a =>
    ("Q: " ++ q ++ "\nA: " ++ a 0) ++ "\n\n" ++
      specQAText (q2 :: qs) (fun i => a (i + 1))

lemma joinSep_mapWithIdx (g : Nat → String) :
    ∀ (fq : List String) (n : Nat),
      joinSep "\n\n" (mapWithIdx (fun i q => "Q: " ++ q ++ "\nA: " ++ g i) n fq) =
        specQAText fq (fun i => g (i + n)) := by
  intro fq
  induction fq with
  | nil => intro n; simp [mapWithIdx, joinSep, specQAText]
  | cons q qs ih =>
    intro n
    cases qs with
    | nil => simp [mapWithIdx, joinSep, specQAText]
    | cons q2 qs2 =>
      have h2 := ih (n + 1)
      have hfun : (fun i => g (i + 1 + n)) = fun i => g (i + (n + 1)) := by
        funext i
        congr 1
        omega
      simp only [mapWithIdx] at h2 ⊢
      simp only [joinSep, specQAText, Nat.zero_add, hfun, h2]

/-- The text `handleFollowUpSubmit` sends is exactly the Q/A block of the spec
format over the stored answers. -/
lemma combinedAnswers_eq_spec (fq : List String) (qa : List (Nat × String)) :
    combinedAnswers fq qa = specQAText fq (fun i => jsInterp (lookupAnswer qa i)) := by
  have h := joinSep_mapWithIdx (fun i => jsInterp (lookupAnswer qa i)) fq 0
  simpa [combinedAnswers] using h

lemma filterBlankFrom_eq_nil (qa : List (Nat × String)) :
    ∀ (fq : List String) (n : Nat),
      filterBlankFrom qa n fq = [] ↔
        ∀ i, i < fq.length → answerBlank qa (n + i) = false := by
  intro fq
  induction fq with
  | nil => intro n; simp [filterBlankFrom]
  | cons q qs ih =>
    intro n
    simp only [filterBlankFrom]
    by_cases hb : answerBlank qa n = true
    · simp only [hb, if_true]
      constructor
      · intro h; cases h
      · intro h
        have := h 0 (by simp)
        simp [hb] at this
    · replace hb : answerBlank qa n = false := by simpa using hb
      simp only [hb, Bool.false_eq_true, if_false, ih (n + 1)]
      constructor
      · intro h i hi
        cases i with
        | zero => simpa using hb
        | succ j =>
          have := h j (by simpa using Nat.lt_of_succ_lt_succ hi)
          simpa [Nat.add_assoc, Nat.add_comm 1 j] using this
      · intro h i hi
        have := h (i + 1) (by simpa using Nat.succ_lt_succ hi)
        simpa [Nat.add_assoc, Nat.add_comm 1 i] using this

/-- The validation in `handleFollowUpSubmit` passes exactly when every question
index has a non-blank answer. -/
lemma unansweredQuestions_eq_nil (s : AppState) :
    unansweredQuestions s = [] ↔
      ∀ i, i < s.followUpQuestions.length → answerBlank s.questionAnswers i = false := by
  have h := filterBlankFrom_eq_nil s.questionAnswers s.followUpQuestions 0
  simpa [unansweredQuestions] using h

/-- The five extracted-data rows in render order. -/
def allEDFields : List EDField :=
  [.symptomsList, .bodyParts, .timeline, .evolution, .medicalChecks]

/-- Whether a field is present (its key exists) in the record. -/
def edFieldPresent (ed : ExtractedData) : EDField → Bool
  | .symptomsList => ed.parsed_symptoms.isSome
  | .bodyParts => ed.body_parts_affected.isSome
  | .timeline => ed.time_since_start.isSome
  | .evolution => ed.evolution_of_symptoms.isSome
  | .medicalChecks => ed.medical_checks.isSome

/-- Modelled from the spec: the set of extracted-data fields that are
present in the record (in render order). -/
def specPresentEDFields (ed : ExtractedData) : List EDField :=
  allEDFields.filter (edFieldPresent ed)

/-- Whether a field has a JS-truthy value: list fields are truthy whenever
present, string fields only when present and nonempty. -/
def edFieldTruthy (ed : ExtractedData) : EDField → Bool
  | .symptomsList => ed.parsed_symptoms.isSome
  | .bodyParts => ed.body_parts_affected.isSome
  | .timeline => jsTruthyStr ed.time_since_start
  | .evolution => jsTruthyStr ed.evolution_of_symptoms
  | .medicalChecks => ed.medical_checks.isSome

/-- The fields present with a truthy value (in render order). -/
def truthyEDFields (ed : ExtractedData) : List EDField :=
  allEDFields.filter (edFieldTruthy ed)

/-- The result screens emit exactly the rows whose field is present with a
truthy value. -/
lemma displayedEDFields_eq_truthy (ed : ExtractedData) :
    displayedEDFields ed = truthyEDFields ed := by
  rcases ed with ⟨ps, bp, ts, ev, mc⟩
  simp only [displayedEDFields, truthyEDFields, allEDFields, List.filter, edFieldTruthy]
  cases ps <;> cases bp <;> cases hts : jsTruthyStr ts <;> cases hev : jsTruthyStr ev <;>
    cases mc <;> simp [hts, hev]

/-- Neither `{ s with isLoading := false }` nor the finally-block of the source
changes anything when the busy flag was already clear. -/
lemma set_loading_false_id {s : AppState} (h : s.isLoading = false) :
    { s with isLoading := false } = s := by
  cases s
  simp_all

/-- Every request `handleSubmit` emits carries the thread id of the state. -/
lemma handleSubmit_req_thread (s : AppState) (net : Outcome AnalyzeResponse) :
    ∀ req ∈ (handleSubmit s net).requests, req.threadOf = s.threadId := by
  intro req hreq
  by_cases hval : jsTrim s.symptoms = ""
  · rw [handleSubmit_invalid hval] at hreq
    cases hreq
  · cases net with
    | success r =>
      by_cases hic : r.is_complete = true
      · rw [handleSubmit_complete hval hic] at hreq
        simp at hreq
        subst hreq
        rfl
      · replace hic : r.is_complete = false := by simpa using hic
        by_cases hex : r.status = "extracted"
        · rw [handleSubmit_extracted hval hic hex] at hreq
          simp at hreq
          subst hreq
          rfl
        · rw [handleSubmit_followups hval hic hex] at hreq
          simp at hreq
          subst hreq
          rfl
    | failure e =>
      rw [handleSubmit_failure hval] at hreq
      simp at hreq
      subst hreq
      rfl

/-- Every request `handleFollowUpSubmit` emits carries the thread id of the state. -/
lemma handleFollowUpSubmit_req_thread (s : AppState) (net : Outcome AnalyzeResponse) :
    ∀ req ∈ (handleFollowUpSubmit s net).requests, req.threadOf = s.threadId := by
  intro req hreq
  by_cases hval : unansweredQuestions s = []
  · cases net with
    | success r =>
      by_cases hic : r.is_complete = true
      · rw [handleFollowUpSubmit_complete hval hic] at hreq
        simp at hreq
        subst hreq
        rfl
      · replace hic : r.is_complete = false := by simpa using hic
        by_cases hex : r.status = "extracted"
        · rw [handleFollowUpSubmit_extracted hval hic hex] at hreq
          simp at hreq
          subst hreq
          rfl
        · rw [handleFollowUpSubmit_followups hval hic hex] at hreq
          simp at hreq
          subst hreq
          rfl
    | failure e =>
      rw [handleFollowUpSubmit_failure hval] at hreq
      simp at hreq
      subst hreq
      rfl
  · rw [handleFollowUpSubmit_invalid hval] at hreq
    cases hreq

/-- Every request `handleWebResearch` emits carries the thread id of the state. -/
lemma handleWebResearch_req_thread (s : AppState) (net : Outcome ResearchResponse) :
    ∀ req ∈ (handleWebResearch s net).requests, req.threadOf = s.threadId := by
  intro req hreq
  cases net with
  | success r =>
    rw [handleWebResearch_success] at hreq
    simp at hreq
    subst hreq
    rfl
  | failure e =>
    rw [handleWebResearch_failure] at hreq
    simp at hreq
    subst hreq
    rfl

/-- `handleFollowUpSubmit` sends exactly one request — the combined Q/A
text with the thread id — whatever the outcome, once validation passes. -/
lemma handleFollowUpSubmit_requests (s : AppState) (net : Outcome AnalyzeResponse)
    (hval : unansweredQuestions s = []) :
    (handleFollowUpSubmit s net).requests =
      [.analyze (combinedAnswers s.followUpQuestions s.questionAnswers) s.threadId] := by
  cases net with
  | success r =>
    by_cases hic : r.is_complete = true
    · rw [handleFollowUpSubmit_complete hval hic]
    · replace hic : r.is_complete = false := by simpa using hic
      by_cases hex : r.status = "extracted"
      · rw [handleFollowUpSubmit_extracted hval hic hex]
      · rw [handleFollowUpSubmit_followups hval hic hex]
  | failure e =>
    rw [handleFollowUpSubmit_failure hval]

/-! Concrete session used to exercise the theorems, following the worked
example of the spec. -/

def wState0 : AppState := initState "thread_1"

def wTyped : AppState :=
  handleInputChange wState0 "I have a headache and mild fever since yesterday"

def rFollow : AnalyzeResponse :=
  ⟨false, "in_progress", none, ["How severe is the fever?"]⟩

def rFollow2 : AnalyzeResponse :=
  ⟨false, "in_progress", none, ["Any cough?", "Any chills?"]⟩

def wED : ExtractedData :=
  ⟨some ["headache", "mild fever"], some ["head"], some "since yesterday", none, none⟩

def rComplete : AnalyzeResponse := ⟨true, "complete", some wED, []⟩

def rExtract : AnalyzeResponse := ⟨false, "extracted", some wED, []⟩

def wAsked : AppState := (handleSubmit wTyped (Outcome.success rFollow)).state

def wAnswered : AppState :=
  handleQuestionAnswerChange wAsked 0 "It is mild, around 38 degrees"

def wComplete : AppState := (handleSubmit wTyped (Outcome.success rComplete)).state

def wExtractedState : AppState := (handleSubmit wTyped (Outcome.success rExtract)).state

lemma reach_wTyped : Reachable "thread_1" wTyped :=
  Reachable.input wState0 _ Reachable.init (by decide) (by decide)

lemma reach_wAsked : Reachable "thread_1" wAsked :=
  Reachable.submit wTyped (Outcome.success rFollow) reach_wTyped (by decide) (by decide)

lemma reach_wAnswered : Reachable "thread_1" wAnswered :=
  Reachable.answer wAsked 0 _ reach_wAsked (by decide) (by decide)

lemma reach_wComplete : Reachable "thread_1" wComplete :=
  Reachable.submit wTyped (Outcome.success rComplete) reach_wTyped (by decide) (by decide)

lemma reach_wExtracted : Reachable "thread_1" wExtractedState :=
  Reachable.submit wTyped (Outcome.success rExtract) reach_wTyped (by decide) (by decide)

/-- C3: a submission that fails local validation — free-text empty or
whitespace-only after trimming, or a follow-up round with any answer
missing or whitespace-only after trimming — issues no network request,
shows a user-facing message, and leaves all conversation state unchanged. -/
theorem c3_local_validation_blocks (s : AppState) (net : Outcome AnalyzeResponse) :
    (jsTrim s.symptoms = "" →
      handleSubmit s net =
        { state := s, requests := [], alerts := ["Please describe your symptoms."] }) ∧
    ((∃ i, i < s.followUpQuestions.length ∧ answerBlank s.questionAnswers i = true) →
      handleFollowUpSubmit s net =
        { state := s, requests := [],
          alerts := ["Please answer all questions before submitting."] }) := by
  constructor
  · intro h
    exact handleSubmit_invalid h
  · rintro ⟨i, hi, hb⟩
    apply handleFollowUpSubmit_invalid
    intro hnil
    have := (unansweredQuestions_eq_nil s).mp hnil i hi
    rw [hb] at this
    cases this

def c3s : AppState := { initState "thread_1" with followUpQuestions := ["How long?"] }

/-- Witness for C3: blank free-text and an unanswered question both block. -/
theorem c3_witness :
    handleSubmit c3s (Outcome.failure NetError.other) =
      { state := c3s, requests := [], alerts := ["Please describe your symptoms."] } ∧
    handleFollowUpSubmit c3s (Outcome.failure NetError.other) =
      { state := c3s, requests := [],
        alerts := ["Please answer all questions before submitting."] } :=
  ⟨(c3_local_validation_blocks c3s _).1 (by decide),
   (c3_local_validation_blocks c3s _).2 ⟨0, by decide, by decide⟩⟩

/-- C4: once every question is answered, the follow-up submission sends
exactly one analyze request whose `symptoms` field is the Q/A block format
of the spec over the stored answers — one `Q:`/`A:` block per question in
question order, blocks joined by a blank line — and it carries the thread
identifier of the state. -/
theorem c4_followup_payload (s : AppState) (net : Outcome AnalyzeResponse)
    (h : ∀ i, i < s.followUpQuestions.length → answerBlank s.questionAnswers i = false) :
    (handleFollowUpSubmit s net).requests =
      [ApiRequest.analyze
        (specQAText s.followUpQuestions (fun i => jsInterp (lookupAnswer s.questionAnswers i)))
        s.threadId] ∧
    (∀ i, i < s.followUpQuestions.length →
      lookupAnswer s.questionAnswers i
        = some (jsInterp (lookupAnswer s.questionAnswers i))) := by
  have hval : unansweredQuestions s = [] := (unansweredQuestions_eq_nil s).mpr h
  constructor
  · rw [handleFollowUpSubmit_requests s net hval, combinedAnswers_eq_spec]
  · intro i hi
    have hb := h i hi
    unfold answerBlank at hb
    cases hl : lookupAnswer s.questionAnswers i with
    | none => rw [hl] at hb; simp at hb
    | some a => simp [jsInterp]

/-- Witness for C4: the answered round sends the formatted Q/A text with
the thread id of the session. -/
theorem c4_witness :
    (handleFollowUpSubmit wAnswered (Outcome.success rComplete)).requests =
      [ApiRequest.analyze
        (specQAText wAnswered.followUpQuestions
          (fun i => jsInterp (lookupAnswer wAnswered.questionAnswers i)))
        wAnswered.threadId] :=
  (c4_followup_payload wAnswered (Outcome.success rComplete) (by decide)).1

/-- C7: resetting from the Complete stage returns every conversation field
to its initial empty value — the result is exactly the mount state for the
same thread id (the busy flag aside) — the UI is back on the Collecting
stage, and the thread identifier is unchanged. -/
theorem c7_reset_clears_all (s : AppState) (h : stage s = Stage.complete) :
    resetConversation s = { initState s.threadId with isLoading := s.isLoading } ∧
    (resetConversation s).threadId = s.threadId ∧
    stage (resetConversation s) = Stage.collecting := by
  refine ⟨?_, rfl, ?_⟩
  · cases s
    simp [resetConversation, initState]
  · simp [stage, resetConversation]

/-- Witness for C7: resetting the completed session yields the mount state. -/
theorem c7_witness :
    resetConversation wComplete
      = { initState wComplete.threadId with isLoading := wComplete.isLoading } ∧
    stage (resetConversation wComplete) = Stage.collecting :=
  ⟨(c7_reset_clears_all wComplete (by decide)).1,
   (c7_reset_clears_all wComplete (by decide)).2.2⟩

/-- C8: a successful research response is merged into state — its
`extracted_data` is stored, its `web_research_results` is stored (verbatim
when present) — and the controller moves from Extracted to Complete. -/
theorem c8_research_success_completes (s : AppState) (r : ResearchResponse)
    (h : stage s = Stage.extracted) :
    (handleWebResearch s (Outcome.success r)).state.extractedData = r.extracted_data ∧
    (∀ w, r.web_research_results = some w →
      (handleWebResearch s (Outcome.success r)).state.webResearchResults = w) ∧
    stage (handleWebResearch s (Outcome.success r)).state = Stage.complete := by
  rw [handleWebResearch_success]
  refine ⟨rfl, ?_, ?_⟩
  · intro w hw
    simp [hw]
  · simp [stage]

def rResearch : ResearchResponse :=
  ⟨some wED, some ⟨some ["influenza"], none, none, some "likely viral", some "medium", none⟩⟩

/-- Witness for C8: the concrete research reply lands on Complete with its
payload stored. -/
theorem c8_witness :
    (handleWebResearch wExtractedState (Outcome.success rResearch)).state.extractedData
      = rResearch.extracted_data ∧
    stage (handleWebResearch wExtractedState (Outcome.success rResearch)).state
      = Stage.complete :=
  ⟨(c8_research_success_completes wExtractedState rResearch (by decide)).1,
   (c8_research_success_completes wExtractedState rResearch (by decide)).2.2⟩

/-- C5: in every reachable state the thread identifier still equals the one
minted at session start, and every request any handler can issue from such
a state — initial analyze, follow-up analyze, or research — carries exactly
that identifier; in particular a follow-up call and the initial call carry
the same identifier. -/
theorem c5_thread_id_stable (tid : String) (s : AppState) (h : Reachable tid s) :
    s.threadId = tid ∧
    (∀ (net : Outcome AnalyzeResponse) req,
      req ∈ (handleSubmit s net).requests → req.threadOf = tid) ∧
    (∀ (net : Outcome AnalyzeResponse) req,
      req ∈ (handleFollowUpSubmit s net).requests → req.threadOf = tid) ∧
    (∀ (net : Outcome ResearchResponse) req,
      req ∈ (handleWebResearch s net).requests → req.threadOf = tid) := by
  have h1 := (reachable_inv h).1
  refine ⟨h1, ?_, ?_, ?_⟩
  · intro net req hreq
    rw [← h1]
    exact handleSubmit_req_thread s net req hreq
  · intro net req hreq
    rw [← h1]
    exact handleFollowUpSubmit_req_thread s net req hreq
  · intro net req hreq
    rw [← h1]
    exact handleWebResearch_req_thread s net req hreq

/-- Witness for C5: deep in the session, after a follow-up round was asked
and answered, the thread id is still the minted one and the follow-up call
carries it. -/
theorem c5_witness :
    wAnswered.threadId = "thread_1" ∧
    ∀ req, req ∈ (handleFollowUpSubmit wAnswered (Outcome.success rComplete)).requests →
      req.threadOf = "thread_1" :=
  ⟨(c5_thread_id_stable "thread_1" wAnswered reach_wAnswered).1,
   (c5_thread_id_stable "thread_1" wAnswered reach_wAnswered).2.2.1 (Outcome.success rComplete)⟩

/-- C6: when a request fails, an error message is shown and the state is
exactly what it was before the request (the busy flag included, since it is
clear again after the `finally`); a failed research call stays on the
Extracted stage; exactly one request was issued, so there is no retry. -/
theorem c6_failure_leaves_state (tid : String) (s : AppState) (h : Reachable tid s)
    (e : NetError) :
    (jsTrim s.symptoms ≠ "" →
      (handleSubmit s (Outcome.failure e)).state = s ∧
      (handleSubmit s (Outcome.failure e)).alerts = [analyzeErrorMessage e] ∧
      (handleSubmit s (Outcome.failure e)).requests.length = 1) ∧
    (unansweredQuestions s = [] →
      (handleFollowUpSubmit s (Outcome.failure e)).state = s ∧
      (handleFollowUpSubmit s (Outcome.failure e)).alerts
        = ["Failed to submit answers. Please try again."] ∧
      (handleFollowUpSubmit s (Outcome.failure e)).requests.length = 1) ∧
    ((handleWebResearch s (Outcome.failure e)).state = s ∧
     (handleWebResearch s (Outcome.failure e)).alerts
       = ["Web research failed. Please try again."] ∧
     (handleWebResearch s (Outcome.failure e)).requests.length = 1 ∧
     (stage s = Stage.extracted →
       stage (handleWebResearch s (Outcome.failure e)).state = Stage.extracted)) := by
  have hL := (reachable_inv h).2.1
  have hid : { s with isLoading := false } = s := set_loading_false_id hL
  refine ⟨?_, ?_, ?_⟩
  · intro hval
    rw [handleSubmit_failure hval]
    exact ⟨hid, rfl, rfl⟩
  · intro hval
    rw [handleFollowUpSubmit_failure hval]
    exact ⟨hid, rfl, rfl⟩
  · rw [handleWebResearch_failure]
    refine ⟨hid, rfl, rfl, ?_⟩
    intro hst
    show stage { s with isLoading := false } = Stage.extracted
    rw [hid]
    exact hst

/-- Witness for C6: a dropped initial call leaves the typed state alone and
a failed research call stays on the Extracted screen. -/
theorem c6_witness :
    (handleSubmit wTyped (Outcome.failure NetError.request)).state = wTyped ∧
    stage (handleWebResearch wExtractedState (Outcome.failure NetError.other)).state
      = Stage.extracted :=
  ⟨((c6_failure_leaves_state "thread_1" wTyped reach_wTyped NetError.request).1
      (by decide)).1,
   (c6_failure_leaves_state "thread_1" wExtractedState reach_wExtracted
      NetError.other).2.2.2.2.2 (by decide)⟩

/-- C9: although the two flags are independent booleans, in every reachable
state `conversationComplete` and `showExtractedData` are never both true,
and a complete conversation has no follow-up questions. -/
theorem c9_flags_exclusive (tid : String) (s : AppState) (h : Reachable tid s) :
    ¬(s.conversationComplete = true ∧ s.showExtractedData = true) ∧
    (s.conversationComplete = true → s.followUpQuestions = []) :=
  ⟨(reachable_inv h).2.2.1, (reachable_inv h).2.2.2.1⟩

/-- Witness for C9: the exclusion at a concrete completed session state. -/
theorem c9_witness :
    ¬(wComplete.conversationComplete = true ∧ wComplete.showExtractedData = true) ∧
    (wComplete.conversationComplete = true → wComplete.followUpQuestions = []) :=
  c9_flags_exclusive "thread_1" wComplete reach_wComplete

/-- C10: the research handler defaults a missing `web_research_results` to
the empty record, but the analyze handlers store `extracted_data` verbatim:
an analyze reply that omits it while signalling `is_complete` (or
`status = "extracted"`) leaves the stored extracted data `undefined`
(`none`), and the unguarded field reads of the result screen then have no
record to read (a TypeError, `renderEDSection = none`), unlike the empty
record, which renders an empty section. -/
theorem c10_extracted_data_unguarded (s : AppState) (r : AnalyzeResponse)
    (rr : ResearchResponse) (hed : r.extracted_data = none) :
    (jsTrim s.symptoms ≠ "" → r.is_complete = true →
      (handleSubmit s (Outcome.success r)).state.extractedData = none ∧
      renderEDSection (handleSubmit s (Outcome.success r)).state.extractedData = none) ∧
    (unansweredQuestions s = [] → r.is_complete = false → r.status = "extracted" →
      (handleFollowUpSubmit s (Outcome.success r)).state.extractedData = none ∧
      renderEDSection (handleFollowUpSubmit s (Outcome.success r)).state.extractedData
        = none) ∧
    (rr.web_research_results = none →
      (handleWebResearch s (Outcome.success rr)).state.webResearchResults
        = WebResearchResults.empty) ∧
    renderEDSection (some ExtractedData.empty) = some [] := by
  refine ⟨?_, ?_, ?_, by decide⟩
  · intro hval hic
    rw [handleSubmit_complete hval hic]
    simp [hed, renderEDSection]
  · intro hval hic hex
    rw [handleFollowUpSubmit_extracted hval hic hex]
    simp [hed, renderEDSection]
  · intro hw
    rw [handleWebResearch_success]
    simp [hw]

def rNoED : AnalyzeResponse := ⟨true, "complete", none, []⟩

def rrNoW : ResearchResponse := ⟨some wED, none⟩

/-- Witness for C10: a completing reply without `extracted_data` leaves the
stored record undefined and the Complete screen crashing, while a research
reply without `web_research_results` stores the empty record. -/
theorem c10_witness :
    (handleSubmit wTyped (Outcome.success rNoED)).state.extractedData = none ∧
    renderEDSection (handleSubmit wTyped (Outcome.success rNoED)).state.extractedData
      = none ∧
    (handleWebResearch wTyped (Outcome.success rrNoW)).state.webResearchResults
      = WebResearchResults.empty := by
  have h := c10_extracted_data_unguarded wTyped rNoED rrNoW (by decide)
  exact ⟨(h.1 (by decide) (by decide)).1, (h.1 (by decide) (by decide)).2,
    h.2.2.1 (by decide)⟩

/-- A record with `time_since_start` present but equal to the empty string. -/
def cexED : ExtractedData := ⟨some ["headache"], none, some "", none, none⟩

/-- A completing analyze reply carrying `cexED`. -/
def cexResp : AnalyzeResponse := ⟨true, "complete", some cexED, []⟩

/-- C1 counterexample: on a completing analyze reply whose record contains
`time_since_start` as the (present) empty string, the controller enters
Complete and stores the record, but the truthiness guard of the screen
skips the present-but-empty string field, so the displayed fields are not
exactly those present in the stored record: the Timeline row is present
yet not displayed. -/
theorem c1_display_counterexample :
    (handleSubmit wTyped (Outcome.success cexResp)).state.conversationComplete = true ∧
    (handleSubmit wTyped (Outcome.success cexResp)).state.extractedData = some cexED ∧
    renderEDSection (handleSubmit wTyped (Outcome.success cexResp)).state.extractedData
      = some [EDField.symptomsList] ∧
    specPresentEDFields cexED = [EDField.symptomsList, EDField.timeline] ∧
    ¬(renderEDSection (handleSubmit wTyped (Outcome.success cexResp)).state.extractedData
        = some (specPresentEDFields cexED)) := by decide

/-- C1 (amended): for every analyze response handled by either submit
handler: if `is_complete` is true the controller enters the Complete stage
(`conversationComplete` set, follow-up questions cleared, extracted data
taken verbatim from the response) and the Complete screen displays exactly
those extracted-data fields that are present in the stored record **with a
JS-truthy value** — list-valued fields whenever present, string-valued
fields when present and nonempty; otherwise, if `status = "extracted"`,
the controller enters the Extracted stage (`showExtractedData` set,
extracted data stored, follow-up questions cleared) where the research
action is offered. -/
theorem c1_analyze_stage_transitions (s : AppState) (r : AnalyzeResponse)
    (hcc : s.conversationComplete = false) :
    (jsTrim s.symptoms ≠ "" → r.is_complete = true →
      (handleSubmit s (Outcome.success r)).state.conversationComplete = true ∧
      (handleSubmit s (Outcome.success r)).state.followUpQuestions = [] ∧
      (handleSubmit s (Outcome.success r)).state.extractedData = r.extracted_data ∧
      stage (handleSubmit s (Outcome.success r)).state = Stage.complete ∧
      (∀ ed, r.extracted_data = some ed →
        renderEDSection (handleSubmit s (Outcome.success r)).state.extractedData
          = some (truthyEDFields ed))) ∧
    (jsTrim s.symptoms ≠ "" → r.is_complete = false → r.status = "extracted" →
      (handleSubmit s (Outcome.success r)).state.showExtractedData = true ∧
      (handleSubmit s (Outcome.success r)).state.extractedData = r.extracted_data ∧
      (handleSubmit s (Outcome.success r)).state.followUpQuestions = [] ∧
      stage (handleSubmit s (Outcome.success r)).state = Stage.extracted ∧
      researchOffered (handleSubmit s (Outcome.success r)).state = true) ∧
    (unansweredQuestions s = [] → r.is_complete = true →
      (handleFollowUpSubmit s (Outcome.success r)).state.conversationComplete = true ∧
      (handleFollowUpSubmit s (Outcome.success r)).state.followUpQuestions = [] ∧
      (handleFollowUpSubmit s (Outcome.success r)).state.extractedData
        = r.extracted_data ∧
      stage (handleFollowUpSubmit s (Outcome.success r)).state = Stage.complete ∧
      (∀ ed, r.extracted_data = some ed →
        renderEDSection (handleFollowUpSubmit s (Outcome.success r)).state.extractedData
          = some (truthyEDFields ed))) ∧
    (unansweredQuestions s = [] → r.is_complete = false → r.status = "extracted" →
      (handleFollowUpSubmit s (Outcome.success r)).state.showExtractedData = true ∧
      (handleFollowUpSubmit s (Outcome.success r)).state.extractedData
        = r.extracted_data ∧
      (handleFollowUpSubmit s (Outcome.success r)).state.followUpQuestions = [] ∧
      stage (handleFollowUpSubmit s (Outcome.success r)).state = Stage.extracted ∧
      researchOffered (handleFollowUpSubmit s (Outcome.success r)).state = true) := by
  refine ⟨?_, ?_, ?_, ?_⟩
  · intro hval hic
    rw [handleSubmit_complete hval hic]
    refine ⟨rfl, rfl, rfl, by simp [stage], ?_⟩
    intro ed hed
    show renderEDSection r.extracted_data = some (truthyEDFields ed)
    rw [hed, renderEDSection, displayedEDFields_eq_truthy]
  · intro hval hic hex
    rw [handleSubmit_extracted hval hic hex]
    refine ⟨rfl, rfl, rfl, ?_, ?_⟩
    · rw [stage_extracted_iff]
      exact ⟨hcc, rfl⟩
    · simp [researchOffered, hcc]
  · intro hval hic
    rw [handleFollowUpSubmit_complete hval hic]
    refine ⟨rfl, rfl, rfl, by simp [stage], ?_⟩
    intro ed hed
    show renderEDSection r.extracted_data = some (truthyEDFields ed)
    rw [hed, renderEDSection, displayedEDFields_eq_truthy]
  · intro hval hic hex
    rw [handleFollowUpSubmit_extracted hval hic hex]
    refine ⟨rfl, rfl, rfl, ?_, ?_⟩
    · rw [stage_extracted_iff]
      exact ⟨hcc, rfl⟩
    · simp [researchOffered, hcc]

/-- Witness for C1: a completing reply lands on the Complete screen showing
its truthy fields, and an extracting reply lands on the Extracted screen
with the research button. -/
theorem c1_witness :
    stage (handleSubmit wTyped (Outcome.success rComplete)).state = Stage.complete ∧
    renderEDSection (handleSubmit wTyped (Outcome.success rComplete)).state.extractedData
      = some (truthyEDFields wED) ∧
    researchOffered (handleSubmit wTyped (Outcome.success rExtract)).state = true := by
  refine ⟨((c1_analyze_stage_transitions wTyped rComplete (by decide)).1
      (by decide) (by decide)).2.2.2.1, ?_, ?_⟩
  · exact ((c1_analyze_stage_transitions wTyped rComplete (by decide)).1
      (by decide) (by decide)).2.2.2.2 wED (by decide)
  · exact ((c1_analyze_stage_transitions wTyped rExtract (by decide)).2.1
      (by decide) (by decide) (by decide)).2.2.2.2

/-- C2: for every analyze response with `is_complete` false and a status
other than "extracted", handled from a reachable collecting-stage state,
the controller stays on the Collecting stage, stores the returned
`follow_up_questions` (so the render shows exactly one answer input per
returned question), the free-text input and its character count are clear,
and the per-question answers are reset. -/
theorem c2_followup_round (tid : String) (s : AppState) (r : AnalyzeResponse)
    (h : Reachable tid s) (hic : r.is_complete = false) (hex : r.status ≠ "extracted") :
    (stage s = Stage.collecting → s.followUpQuestions = [] → jsTrim s.symptoms ≠ "" →
      stage (handleSubmit s (Outcome.success r)).state = Stage.collecting ∧
      (handleSubmit s (Outcome.success r)).state.followUpQuestions
        = r.follow_up_questions ∧
      renderedAnswerInputs (handleSubmit s (Outcome.success r)).state
        = r.follow_up_questions.length ∧
      (handleSubmit s (Outcome.success r)).state.symptoms = "" ∧
      (handleSubmit s (Outcome.success r)).state.charCount = 0 ∧
      (handleSubmit s (Outcome.success r)).state.questionAnswers = []) ∧
    (stage s = Stage.collecting → s.followUpQuestions ≠ [] →
      unansweredQuestions s = [] →
      stage (handleFollowUpSubmit s (Outcome.success r)).state = Stage.collecting ∧
      (handleFollowUpSubmit s (Outcome.success r)).state.followUpQuestions
        = r.follow_up_questions ∧
      renderedAnswerInputs (handleFollowUpSubmit s (Outcome.success r)).state
        = r.follow_up_questions.length ∧
      (handleFollowUpSubmit s (Outcome.success r)).state.symptoms = "" ∧
      (handleFollowUpSubmit s (Outcome.success r)).state.charCount = 0 ∧
      (handleFollowUpSubmit s (Outcome.success r)).state.questionAnswers = []) := by
  constructor
  · intro hst hfq hval
    obtain ⟨hcc, hse⟩ := (stage_collecting_iff s).mp hst
    rw [handleSubmit_followups hval hic hex]
    refine ⟨?_, rfl, ?_, rfl, rfl, rfl⟩
    · rw [stage_collecting_iff]
      exact ⟨hcc, rfl⟩
    · simp [renderedAnswerInputs, hcc]
  · intro hst hfq hval
    obtain ⟨hcc, hse⟩ := (stage_collecting_iff s).mp hst
    obtain ⟨hsy, hch⟩ := (reachable_inv h).2.2.2.2.2 hfq
    rw [handleFollowUpSubmit_followups hval hic hex]
    refine ⟨?_, rfl, ?_, hsy, hch, rfl⟩
    · rw [stage_collecting_iff]
      exact ⟨hcc, rfl⟩
    · simp [renderedAnswerInputs, hcc]

/-- Witness for C2: another round of questions arrives mid-session; the
controller stays collecting with two inputs and a clear free-text field. -/
theorem c2_witness :
    stage (handleFollowUpSubmit wAnswered (Outcome.success rFollow2)).state
      = Stage.collecting ∧
    renderedAnswerInputs (handleFollowUpSubmit wAnswered (Outcome.success rFollow2)).state
      = 2 ∧
    (handleFollowUpSubmit wAnswered (Outcome.success rFollow2)).state.symptoms = "" := by
  have h := (c2_followup_round "thread_1" wAnswered rFollow2 reach_wAnswered
      (by decide) (by decide)).2 (by decide) (by decide) (by decide)
  exact ⟨h.1, h.2.2.1, h.2.2.2.1⟩
